import Mathlib

/-!
Verification of the diagnostic-normalization layer of `mewbot_dev_tools/lint.py`:
the line-oriented parsers (flake8, mypy, pylint, pydocstyle), the black stderr
parser, and the diff-hunk extraction engine shared by the isort and black diff
parsers. Python strings are modelled as Lean `String`, byte streams as
`List Nat`, and a raised exception as an `Option PyErr` paired with the records
yielded before the exception.
-/

/-- Python `s.split(sep, n)` for a single-character separator `sep`,
with Python semantics: split at the first `n` occurrences, keep empty segments. -/
def consHead (x : Char) : List (List Char) → List (List Char)
  | [] => [[x]]
  | h :: t => (x :: h) :: t

def splitChN (c : Char) (n : Nat) : List Char → List (List Char)
  | [] => [[]]
  | x :: xs =>
    if x = c ∧ n ≠ 0 then [] :: splitChN c (n - 1) xs
    else consHead x (splitChN c n xs)

/-- Python `s.split(sep)` (unbounded maxsplit), single-character separator. -/
def splitCh (c : Char) (cs : List Char) : List (List Char) :=
  splitChN c cs.length cs

/-- The whitespace set of Python `str.strip()` (`str.isspace`). -/
def pyIsSpace (ch : Char) : Bool :=
  ch == ' ' || ch == '\t' || ch == '\n' || ch == '\r' || ch == '\x0b' || ch == '\x0c' ||
  ch == '\x1c' || ch == '\x1d' || ch == '\x1e' || ch == '\x1f' || ch == '\x85' ||
  ch == '\xa0' || ch == '\u1680' ||
  (decide (0x2000 ≤ ch.toNat) && decide (ch.toNat ≤ 0x200a)) ||
  ch == '\u2028' || ch == '\u2029' || ch == '\u202f' || ch == '\u205f' || ch == '\u3000'

def trimLeftPy : List Char → List Char
  | [] => []
  | x :: xs => if pyIsSpace x then trimLeftPy xs else x :: xs

/-- Python `s.strip()`. -/
def pyStrip (s : String) : String :=
  String.mk (trimLeftPy (trimLeftPy s.data.reverse).reverse)

def isPrefixL : List Char → List Char → Bool
  | [], _ => true
  | _ :: _, [] => false
  | a :: as, b :: bs => a == b && isPrefixL as bs

/-- Python `s.startswith(p)`. -/
def strStartsWith (s p : String) : Bool := isPrefixL p.data s.data

/-- Python `s[n:]`. -/
def strDrop (s : String) (n : Nat) : String := String.mk (s.data.drop n)

/-- ASCII-digit run with the underscore grouping Python `int()` accepts
(an underscore must sit between two digits). Non-ASCII digits, which
Python also accepts, do not occur in the outputs being parsed. -/
def digitsGo (acc : Nat) : List Char → Option Nat
  | [] => some acc
  | c :: cs =>
    if c.isDigit then digitsGo (acc * 10 + (c.toNat - 48)) cs
    else if c = '_' then
      match cs with
      | d :: cs2 => if d.isDigit then digitsGo (acc * 10 + (d.toNat - 48)) cs2 else none
      | [] => none
    else none

def digitsVal : List Char → Option Nat
  | [] => none
  | c :: cs => if c.isDigit then digitsGo (c.toNat - 48) cs else none

/-- Python `int(s)`: strip whitespace, optional sign, digit run;
`none` models a raised `ValueError`. -/
def pyInt (s : String) : Option Int :=
  match (pyStrip s).data with
  | '+' :: cs => (digitsVal cs).map (fun n => (n : Int))
  | '-' :: cs => (digitsVal cs).map (fun n => -(n : Int))
  | cs => (digitsVal cs).map (fun n => (n : Int))

/-- Python `abs` on int. -/
def pyAbs (i : Int) : Int := if i < 0 then -i else i

/-- Bytes of an ASCII string (UTF-8 coincides with the code points there);
used only to write concrete ASCII inputs. -/
def asciiBytes (s : String) : List Nat := s.data.map Char.toNat

/-- Valid UTF-8 continuation byte. -/
def utf8Cont (b : Nat) : Bool := decide (0x80 ≤ b) && decide (b ≤ 0xBF)

/-- Constraint on the first continuation byte of a three-byte sequence
(excludes overlong forms and surrogates, as CPython's decoder does). -/
def utf8Cont3First (b c1 : Nat) : Bool :=
  if b = 0xE0 then decide (0xA0 ≤ c1) && decide (c1 ≤ 0xBF)
  else if b = 0xED then decide (0x80 ≤ c1) && decide (c1 ≤ 0x9F)
  else utf8Cont c1

/-- Constraint on the first continuation byte of a four-byte sequence. -/
def utf8Cont4First (b c1 : Nat) : Bool :=
  if b = 0xF0 then decide (0x90 ≤ c1) && decide (c1 ≤ 0xBF)
  else if b = 0xF4 then decide (0x80 ≤ c1) && decide (c1 ≤ 0x8F)
  else utf8Cont c1

/-- Python `bytes.decode("utf-8")`: strict; `none` models a raised
`UnicodeDecodeError`. -/
def utf8DecodeStrict : List Nat → Option (List Char)
  | [] => some []
  | b :: rest =>
    if b ≤ 0x7F then (utf8DecodeStrict rest).map (fun cs => Char.ofNat b :: cs)
    else if 0xC2 ≤ b ∧ b ≤ 0xDF then
      match rest with
      | c1 :: rest1 =>
        if utf8Cont c1 then
          (utf8DecodeStrict rest1).map
            (fun cs => Char.ofNat ((b - 0xC0) * 0x40 + (c1 - 0x80)) :: cs)
        else none
      | [] => none
    else if 0xE0 ≤ b ∧ b ≤ 0xEF then
      match rest with
      | c1 :: c2 :: rest2 =>
        if utf8Cont3First b c1 && utf8Cont c2 then
          (utf8DecodeStrict rest2).map
            (fun cs => Char.ofNat ((b - 0xE0) * 0x1000 + (c1 - 0x80) * 0x40 + (c2 - 0x80)) :: cs)
        else none
      | _ => none
    else if 0xF0 ≤ b ∧ b ≤ 0xF4 then
      match rest with
      | c1 :: c2 :: c3 :: rest3 =>
        if utf8Cont4First b c1 && utf8Cont c2 && utf8Cont c3 then
          (utf8DecodeStrict rest3).map
            (fun cs => Char.ofNat ((b - 0xF0) * 0x40000 + (c1 - 0x80) * 0x1000 +
              (c2 - 0x80) * 0x40 + (c3 - 0x80)) :: cs)
        else none
      | _ => none
    else none

/-- The U+FFFD replacement character. -/
def replChar : Char := Char.ofNat 0xFFFD

/-- Loop of the replacing UTF-8 decoder, structurally recursive on a fuel
counter; every step consumes at least one byte, so fuel equal to the byte
count (supplied by `utf8DecodeReplace`) is never exhausted early. -/
def utf8DecodeReplaceGo : Nat → List Nat → List Char
  | 0, _ => []
  | _ + 1, [] => []
  | fuel + 1, b :: rest =>
    if b ≤ 0x7F then Char.ofNat b :: utf8DecodeReplaceGo fuel rest
    else if 0xC2 ≤ b ∧ b ≤ 0xDF then
      match rest with
      | c1 :: rest1 =>
        if utf8Cont c1 then
          Char.ofNat ((b - 0xC0) * 0x40 + (c1 - 0x80)) :: utf8DecodeReplaceGo fuel rest1
        else replChar :: utf8DecodeReplaceGo fuel rest
      | [] => [replChar]
    else if 0xE0 ≤ b ∧ b ≤ 0xEF then
      match rest with
      | c1 :: rest1 =>
        if utf8Cont3First b c1 then
          match rest1 with
          | c2 :: rest2 =>
            if utf8Cont c2 then
              Char.ofNat ((b - 0xE0) * 0x1000 + (c1 - 0x80) * 0x40 + (c2 - 0x80)) ::
                utf8DecodeReplaceGo fuel rest2
            else replChar :: utf8DecodeReplaceGo fuel rest1
          | [] => [replChar]
        else replChar :: utf8DecodeReplaceGo fuel rest
      | [] => [replChar]
    else if 0xF0 ≤ b ∧ b ≤ 0xF4 then
      match rest with
      | c1 :: rest1 =>
        if utf8Cont4First b c1 then
          match rest1 with
          | c2 :: rest2 =>
            if utf8Cont c2 then
              match rest2 with
              | c3 :: rest3 =>
                if utf8Cont c3 then
                  Char.ofNat ((b - 0xF0) * 0x40000 + (c1 - 0x80) * 0x1000 +
                    (c2 - 0x80) * 0x40 + (c3 - 0x80)) :: utf8DecodeReplaceGo fuel rest3
                else replChar :: utf8DecodeReplaceGo fuel rest2
              | [] => [replChar]
            else replChar :: utf8DecodeReplaceGo fuel rest1
          | [] => [replChar]
        else replChar :: utf8DecodeReplaceGo fuel rest
      | [] => [replChar]
    else replChar :: utf8DecodeReplaceGo fuel rest

/-- Python `bytes.decode("utf-8", errors="replace")`: total; each maximal
invalid subpart becomes one U+FFFD, as in CPython. -/
def utf8DecodeReplace (bs : List Nat) : List Char :=
  utf8DecodeReplaceGo bs.length bs

/-- Modelled from the spec: the Diagnostic Record, i.e. the `Annotation`
value type imported by `lint.py` from the toolchain module (which is not
among the sources); its fields, in the positional order every call site
uses, are severity, file, line, column, source, title, message (§3). -/
structure Diagnostic where
  severity : String
  file : String
  line : Int
  column : Int
  source : String
  title : String
  message : String
deriving DecidableEq, Repr

/-- An exception escaping a parser: `ValueError` from an unpacking or
`int()` call outside any `try`, or `UnicodeDecodeError` from a strict
`decode("utf-8")`. -/
inductive PyErr where
  | valueError
  | unicodeDecodeError
deriving DecidableEq, Repr

/-- The set `LEVELS = frozenset` of the canonical severities (lint.py line 29). -/
def LEVELS : List String := ["notice", "warning", "error"]

/-- The severity normalization of `lint_mypy` (lint.py lines 148-153):
strip, map the synonym `note` to `notice`, then collapse anything outside
`LEVELS` to `error`. -/
def normalizeLevel (raw : String) : String :=
  let level := pyStrip raw
  let level := if level = "note" then "notice" else level
  if LEVELS.contains level then level else "error"

/-- One line of `lint_flake8` (lint.py lines 99-109); `none` covers both
the `continue` fast path and a caught `ValueError`. -/
def flake8Line (line : String) : Option Diagnostic :=
  if line.data.contains ':' then
    match splitChN ':' 3 (pyStrip line).data with
    | [file, lineNo, col, err] =>
      match pyInt (String.mk lineNo), pyInt (String.mk col) with
      | some l, some c =>
        some ⟨"error", String.mk file, l, c, "flake8", "", pyStrip (String.mk err)⟩
      | _, _ => none
    | _ => none
  else none

/-- One line of `lint_mypy` (lint.py lines 142-157). -/
def mypyLine (line : String) : Option Diagnostic :=
  if line.data.contains ':' then
    match splitChN ':' 3 (pyStrip line).data with
    | [file, lineNo, level, err] =>
      match pyInt (String.mk lineNo) with
      | some l =>
        some ⟨normalizeLevel (String.mk level), String.mk file, l, 1, "mypy", "",
          pyStrip (String.mk err)⟩
      | none => none
    | _ => none
  else none

/-- One line of `lint_pylint` (lint.py lines 172-180); the message is the
fourth field verbatim, not stripped. -/
def pylintLine (line : String) : Option Diagnostic :=
  if line.data.contains ':' then
    match splitChN ':' 3 (pyStrip line).data with
    | [file, lineNo, col, err] =>
      match pyInt (String.mk lineNo), pyInt (String.mk col) with
      | some l, some c =>
        some ⟨"error", String.mk file, l, c, "pylint", "", String.mk err⟩
      | _, _ => none
    | _ => none
  else none

/-- Python `header.split(" ", 1)[0]` of `lint_pydocstyle`. -/
def headToken (h : String) : String :=
  String.mk ((splitChN ' ' 1 h.data).headD [])

/-- The two-line loop of `lint_pydocstyle` (lint.py lines 195-207): a
header that parses consumes the following line as the message even when
`int()` later fails; `StopIteration` from a missing message line is
caught, dropping the partial record. -/
def pydocstyleLoop : List String → List Diagnostic
  | [] => []
  | header :: rest =>
    if header.data.contains ':' then
      match splitCh ':' (headToken header).data with
      | [f, lineNo] =>
        match rest with
        | [] => []
        | msg :: rest2 =>
          match pyInt (String.mk lineNo) with
          | some l =>
            ⟨"error", String.mk f, l, 1, "pydocstyle", "", pyStrip msg⟩ :: pydocstyleLoop rest2
          | none => pydocstyleLoop rest2
      | _ => pydocstyleLoop rest
    else pydocstyleLoop rest

/-- Python `header.rpartition(" ")` third component: text after the last space,
or the whole string when it has no space. -/
def rpartAfterSp (s : String) : String :=
  String.mk ((splitCh ' ' s.data).getLastD [])

/-- The per-line loop of `lint_black_errors` (lint.py lines 217-230);
its six-way unpacking and `int()` calls are outside any `try`, so their
`ValueError` escapes, ending the generator after the records already
yielded. -/
def blackErrorsLoop : List String → List Diagnostic × Option PyErr
  | [] => ([], none)
  | e :: rest =>
    let err := pyStrip e
    if err = "" ∨ err.data.contains ':' = false then blackErrorsLoop rest
    else
      match splitChN ':' 5 err.data with
      | [level, header, message, line, char, info] =>
        let file := rpartAfterSp (String.mk header)
        let lvlS := pyStrip (String.mk level)
        let lvl := if LEVELS.contains lvlS then lvlS else "error"
        match pyInt (String.mk line), pyInt (String.mk char) with
        | some l, some c =>
          let r := blackErrorsLoop rest
          (⟨lvl, file, l, c, "black", pyStrip (String.mk message),
            pyStrip (String.mk info)⟩ :: r.1, r.2)
        | _, _ => ([], some PyErr.valueError)
      | _ => ([], some PyErr.valueError)

/-- The diff-hunk extraction engine shared by `lint_isort_diffs` and
`lint_black_diffs` (lint.py lines 238-264 and 272-298): state is the
current file, current line and buffer; `tFile` and `tHunk` are the title
strings of the flush at a `--- ` header and at a `@@` header (they differ
in the isort instance). Unpacking failures and `int()` failures are
outside any `try` and escape after the records already yielded. -/
def diffLoop (src tFile tHunk : String) :
    String → Int → String → List String → List Diagnostic × Option PyErr
  | _, _, _, [] => ([], none)
  | file, line, buffer, dl :: rest =>
    if strStartsWith dl "+++ " then diffLoop src tFile tHunk file line buffer rest
    else if strStartsWith dl "--- " then
      let flushed := if file ≠ "" ∧ buffer ≠ "" then
        [⟨"error", file, line, 1, src, tFile, buffer⟩] else []
      match splitCh '\t' (strDrop dl 4).data with
      | [f, _] =>
        let r := diffLoop src tFile tHunk (String.mk f) line "" rest
        (flushed ++ r.1, r.2)
      | _ => (flushed, some PyErr.valueError)
    else if strStartsWith dl "@@" then
      let flushed := if file ≠ "" ∧ buffer ≠ "" then
        [⟨"error", file, line, 1, src, tHunk, buffer⟩] else []
      match splitCh ' ' dl.data with
      | [_, start, _, _] =>
        match splitCh ',' start with
        | [l, _] =>
          match pyInt (String.mk l) with
          | some n =>
            let r := diffLoop src tFile tHunk file (pyAbs n) "" rest
            (flushed ++ r.1, r.2)
          | none => (flushed, some PyErr.valueError)
        | _ => (flushed, some PyErr.valueError)
      | _ => (flushed, some PyErr.valueError)
    else diffLoop src tFile tHunk file line (buffer ++ dl ++ "\n") rest

/-- Split decoded text into Python `split("\n")` lines. -/
def toLines (cs : List Char) : List String := (splitCh '\n' cs).map String.mk

/-- Parsing of `LintToolchain.lint_flake8` (lint.py lines 99-109): strict
UTF-8 decode of stdout, then one optional record per line. -/
def lint_flake8 (stdout : List Nat) : List Diagnostic × Option PyErr :=
  match utf8DecodeStrict stdout with
  | none => ([], some PyErr.unicodeDecodeError)
  | some cs => ((toLines cs).filterMap flake8Line, none)

/-- Parsing of `LintToolchain.lint_mypy` (lint.py lines 142-157): strict
UTF-8 decode of stdout. -/
def lint_mypy (stdout : List Nat) : List Diagnostic × Option PyErr :=
  match utf8DecodeStrict stdout with
  | none => ([], some PyErr.unicodeDecodeError)
  | some cs => ((toLines cs).filterMap mypyLine, none)

/-- Parsing of `LintToolchain.lint_pylint` (lint.py lines 168-180):
`decode("utf-8", errors="replace")`, hence no decode failure. -/
def lint_pylint (stdout : List Nat) : List Diagnostic × Option PyErr :=
  ((toLines (utf8DecodeReplace stdout)).filterMap pylintLine, none)

/-- Parsing of `LintToolchain.lint_pydocstyle` (lint.py lines 191-207):
strict UTF-8 decode of stdout, then the two-line loop. -/
def lint_pydocstyle (stdout : List Nat) : List Diagnostic × Option PyErr :=
  match utf8DecodeStrict stdout with
  | none => ([], some PyErr.unicodeDecodeError)
  | some cs => (pydocstyleLoop (toLines cs), none)

/-- Function `lint_black_errors` (lint.py lines 210-230): strict UTF-8 decode of
stderr, then the unprotected per-line loop. -/
def lint_black_errors (stderr : List Nat) : List Diagnostic × Option PyErr :=
  match utf8DecodeStrict stderr with
  | none => ([], some PyErr.unicodeDecodeError)
  | some cs => blackErrorsLoop (toLines cs)

/-- Function `lint_isort_diffs` (lint.py lines 233-264); note the two distinct
title strings, `"isort alteration"` at a `--- ` flush and the misspelt
`"isort altteration"` at a `@@` flush. -/
def lint_isort_diffs (stdout : List Nat) : List Diagnostic × Option PyErr :=
  match utf8DecodeStrict stdout with
  | none => ([], some PyErr.unicodeDecodeError)
  | some cs => diffLoop "isort" "isort alteration" "isort altteration" "" 0 "" (toLines cs)

/-- Function `lint_black_diffs` (lint.py lines 267-298). -/
def lint_black_diffs (stdout : List Nat) : List Diagnostic × Option PyErr :=
  match utf8DecodeStrict stdout with
  | none => ([], some PyErr.unicodeDecodeError)
  | some cs => diffLoop "black" "Black alteration" "Black alteration" "" 0 "" (toLines cs)

/-- Message accumulated by the diff engine for a hunk body: each body
line followed by a newline. -/
def bodyMsg (ls : List String) : String :=
  ls.foldl (fun a l => a ++ l ++ "\n") ""

/-- A diff line that is none of the three recognized markers. -/
def plainDiffLine (l : String) : Bool :=
  !(strStartsWith l "+++ ") && !(strStartsWith l "--- ") && !(strStartsWith l "@@")

lemma plainDiffLine_spec (l : String) (h : plainDiffLine l = true) :
    strStartsWith l "+++ " = false ∧ strStartsWith l "--- " = false ∧
      strStartsWith l "@@" = false := by
  simp only [plainDiffLine, Bool.and_eq_true, Bool.not_eq_true'] at h
  exact ⟨h.1.1, h.1.2, h.2⟩

lemma diffLoop_plain_cons (s tF tH dl : String) (hdl : plainDiffLine dl = true)
    (f : String) (n : Int) (buf : String) (rest : List String) :
    diffLoop s tF tH f n buf (dl :: rest) =
      diffLoop s tF tH f n (buf ++ dl ++ "\n") rest := by
  obtain ⟨h1, h2, h3⟩ := plainDiffLine_spec dl hdl
  simp [diffLoop, h1, h2, h3]

lemma diffLoop_plain_append (s tF tH : String) (b : List String)
    (hb : ∀ l ∈ b, plainDiffLine l = true) :
    ∀ (rest : List String) (f : String) (n : Int) (buf : String),
      diffLoop s tF tH f n buf (b ++ rest) =
        diffLoop s tF tH f n (List.foldl (fun a l => a ++ l ++ "\n") buf b) rest := by
  induction b with
  | nil => intro rest f n buf; rfl
  | cons l ls ih =>
    intro rest f n buf
    rw [List.cons_append, diffLoop_plain_cons s tF tH l (hb l (by simp))]
    exact ih (fun x hx => hb x (by simp [hx])) rest f n (buf ++ l ++ "\n")

lemma diffLoop_body (s tF tH : String) (b : List String)
    (hb : ∀ l ∈ b, plainDiffLine l = true) (rest : List String) (f : String) (n : Int) :
    diffLoop s tF tH f n "" (b ++ rest) = diffLoop s tF tH f n (bodyMsg b) rest :=
  diffLoop_plain_append s tF tH b hb rest f n ""

lemma foldl_msg_len : ∀ (ls : List String) (buf : String),
    buf.length ≤ (List.foldl (fun a l => a ++ l ++ "\n") buf ls).length := by
  intro ls
  induction ls with
  | nil => intro buf; simp
  | cons l t ih =>
    intro buf
    calc buf.length ≤ (buf ++ l ++ "\n").length := by
          simp only [String.length_append]; omega
    _ ≤ _ := ih (buf ++ l ++ "\n")

lemma bodyMsg_ne_empty (b : List String) (hb : b ≠ []) : bodyMsg b ≠ "" := by
  match b, hb with
  | l :: ls, _ =>
    intro hcon
    have h1 : ("" ++ l ++ "\n").length ≤ (bodyMsg (l :: ls)).length := foldl_msg_len ls _
    rw [hcon] at h1
    have h2 : ("\n" : String).length = 1 := rfl
    simp only [String.length_append] at h1
    omega

lemma pyAbs_nonneg (i : Int) : 0 ≤ pyAbs i := by
  unfold pyAbs; split <;> omega

lemma diffLoop_step_file0 (s tF tH : String) (rest : List String) :
    diffLoop s tF tH "" 0 "" ("--- a.py\t2024" :: rest) =
      diffLoop s tF tH "a.py" 0 "" rest := rfl

lemma diffLoop_step_hunk12 (s tF tH f : String) (n : Int) (rest : List String) :
    diffLoop s tF tH f n "" ("@@ -12,5 +15,5 @@" :: rest) =
      diffLoop s tF tH f 12 "" rest := by
  show ((if f ≠ "" ∧ ("" : String) ≠ "" then
          [⟨"error", f, n, 1, s, tH, ""⟩] else []) ++ (diffLoop s tF tH f 12 "" rest).1,
        (diffLoop s tF tH f 12 "" rest).2) = _
  rw [if_neg (by simp)]
  rfl

lemma diffLoop_step_hunk3 (s tF tH f : String) (hf : f ≠ "") (n : Int)
    (buf : String) (hbuf : buf ≠ "") (rest : List String) :
    diffLoop s tF tH f n buf ("@@ -3,2 +4,2 @@" :: rest) =
      (⟨"error", f, n, 1, s, tH, buf⟩ :: (diffLoop s tF tH f 3 "" rest).1,
        (diffLoop s tF tH f 3 "" rest).2) := by
  show ((if f ≠ "" ∧ buf ≠ "" then
          [⟨"error", f, n, 1, s, tH, buf⟩] else []) ++ (diffLoop s tF tH f 3 "" rest).1,
        (diffLoop s tF tH f 3 "" rest).2) = _
  rw [if_pos ⟨hf, hbuf⟩]
  rfl

lemma diffLoop_step_trail (s tF tH f : String) (hf : f ≠ "") (n : Int)
    (buf : String) (hbuf : buf ≠ "") (rest : List String) :
    diffLoop s tF tH f n buf ("--- b.py\tlater" :: rest) =
      (⟨"error", f, n, 1, s, tF, buf⟩ :: (diffLoop s tF tH "b.py" n "" rest).1,
        (diffLoop s tF tH "b.py" n "" rest).2) := by
  show ((if f ≠ "" ∧ buf ≠ "" then
          [⟨"error", f, n, 1, s, tF, buf⟩] else []) ++ (diffLoop s tF tH "b.py" n "" rest).1,
        (diffLoop s tF tH "b.py" n "" rest).2) = _
  rw [if_pos ⟨hf, hbuf⟩]
  rfl

lemma mypyLine_col (s : String) (d : Diagnostic) (h : mypyLine s = some d) :
    d.column = 1 := by
  unfold mypyLine at h
  repeat' split at h
  all_goals first
    | exact Option.noConfusion h
    | (cases h; rfl)

lemma memFlush (f : String) (n : Int) (hn : 0 ≤ n) (s t buf : String) (d : Diagnostic)
    (hd : d ∈ (if f ≠ "" ∧ buf ≠ "" then [Diagnostic.mk "error" f n 1 s t buf] else [])) :
    d.column = 1 ∧ 0 ≤ d.line := by
  split at hd
  · cases List.mem_singleton.mp hd
    exact ⟨rfl, hn⟩
  · simp at hd

lemma diffLoop_col_line (s tF tH : String) :
    ∀ (ls : List String) (f : String) (n : Int) (buf : String), 0 ≤ n →
      ∀ d ∈ (diffLoop s tF tH f n buf ls).1, d.column = 1 ∧ 0 ≤ d.line := by
  intro ls
  induction ls with
  | nil =>
    intro f n buf hn d hd
    simp [diffLoop] at hd
  | cons dl rest ih =>
    intro f n buf hn d hd
    simp only [diffLoop] at hd
    split at hd
    · exact ih f n buf hn d hd
    · split at hd
      · split at hd
        · simp only [] at hd
          rcases List.mem_append.mp hd with hfl | hrec
          · exact memFlush f n hn s tF buf d hfl
          · exact ih _ n "" hn d hrec
        · exact memFlush f n hn s tF buf d hd
      · split at hd
        · split at hd
          · split at hd
            · split at hd
              · rcases List.mem_append.mp hd with hfl | hrec
                · exact memFlush f n hn s tH buf d hfl
                · exact ih f _ "" (pyAbs_nonneg _) d hrec
              · exact memFlush f n hn s tH buf d hd
            · exact memFlush f n hn s tH buf d hd
          · exact memFlush f n hn s tH buf d hd
        · exact ih f n (buf ++ dl ++ "\n") hn d hd

lemma pydocstyleLoop_col :
    ∀ (N : Nat) (ls : List String), ls.length ≤ N →
      ∀ d ∈ pydocstyleLoop ls, d.column = 1 := by
  intro N
  induction N with
  | zero =>
    intro ls hl d hd
    have hnil : ls = [] := List.length_eq_zero.mp (Nat.le_zero.mp hl)
    subst hnil
    simp [pydocstyleLoop] at hd
  | succ n ih =>
    intro ls hl d hd
    cases ls with
    | nil => simp [pydocstyleLoop] at hd
    | cons header rest =>
      simp only [List.length_cons] at hl
      simp only [pydocstyleLoop] at hd
      split at hd
      · split at hd
        · split at hd
          · simp at hd
          · split at hd
            · rcases List.mem_cons.mp hd with h1 | h2
              · cases h1; rfl
              · refine ih _ ?_ d h2
                simp only [List.length_cons] at hl ⊢
                omega
            · refine ih _ ?_ d hd
              simp only [List.length_cons] at hl ⊢
              omega
        · exact ih rest (by omega) d hd
      · exact ih rest (by omega) d hd

/-- C1 counterexample: the black stderr parser raises an uncaught
ValueError on the stderr line "a:b" (a line with a colon but fewer than
six colon-separated fields), so it is false that every parser of the
layer terminates without raising on every byte input. -/
theorem c1_black_errors_raises :
    lint_black_errors (asciiBytes "a:b") = ([], some PyErr.valueError) ∧
    ((lint_black_errors (asciiBytes "a:b")).2 == none) = false := by
  constructor <;> decide

/-- C1 amended: the four line parsers never let a fault escape — the
lint-style (pylint) parser on every byte input, and the flake8-style,
type-checker-style and docstring-style parsers on every byte input that
decodes as UTF-8; the black stderr parser and the diff engines are not
covered (see the counterexample). -/
theorem c1_line_parsers_no_raise :
    (∀ bs : List Nat, (lint_pylint bs).2 = none) ∧
    (∀ (bs : List Nat) (cs : List Char), utf8DecodeStrict bs = some cs →
      (lint_flake8 bs).2 = none ∧ (lint_mypy bs).2 = none ∧
        (lint_pydocstyle bs).2 = none) := by
  refine ⟨fun bs => rfl, fun bs cs h => ?_⟩
  unfold lint_flake8 lint_mypy lint_pydocstyle
  rw [h]
  exact ⟨rfl, rfl, rfl⟩

/-- C1 witness: the no-raise theorem applied to the byte input [120]. -/
theorem c1_line_parsers_no_raise_witness :
    (lint_flake8 [120]).2 = none ∧ (lint_mypy [120]).2 = none ∧
      (lint_pydocstyle [120]).2 = none :=
  c1_line_parsers_no_raise.2 [120] [Char.ofNat 120] (by decide)

/-- C2: the severity normalization returns the trimmed input exactly when
that trimmed value is one of the canonical tokens, returns "notice" for
trimmed value "note", and returns "error" for every other input,
including "" and the non-canonical casing "ERROR". -/
theorem c2_severity_normalizer :
    (∀ raw : String, normalizeLevel raw =
      if LEVELS.contains (pyStrip raw) then pyStrip raw
      else if pyStrip raw = "note" then "notice" else "error") ∧
    normalizeLevel "" = "error" ∧ normalizeLevel "ERROR" = "error" := by
  refine ⟨fun raw => ?_, rfl, rfl⟩
  simp only [normalizeLevel]
  by_cases h : pyStrip raw = "note"
  · simp only [h]
    rfl
  · rw [if_neg h, if_neg h]

/-- C3 counterexample: an after-file header followed by two hunk headers
with no file header between them, with the input ending inside the second
hunk body: exactly one record is produced (the trailing hunk is never
flushed), not two. -/
theorem c3_trailing_hunk_dropped :
    lint_isort_diffs
        (asciiBytes "--- a.py\t2024\n@@ -1,2 +1,2 @@\nbody1\n@@ -3,2 +3,2 @@\nbody2") =
      ([⟨"error", "a.py", 1, 1, "isort", "isort altteration", "body1\n"⟩], none) ∧
    ((lint_isort_diffs
        (asciiBytes "--- a.py\t2024\n@@ -1,2 +1,2 @@\nbody1\n@@ -3,2 +3,2 @@\nbody2")).1.length
      == 2) = false := by
  constructor <;> decide

/-- C3 amended: with one after-file header and two hunk headers for it,
the engine produces exactly two records, each anchored at the absolute
value of its own hunk header's original-range start and carrying as
message exactly its hunk's body lines (each with a trailing newline),
provided each body is nonempty, bodies contain no marker lines, and the
second body is followed by a further file-header line before end of input
(a trailing hunk at end of input is dropped). -/
theorem c3_two_hunks (b1 b2 : List String) (h1 : b1 ≠ []) (h2 : b2 ≠ [])
    (hb : ∀ l ∈ b1 ++ b2, plainDiffLine l = true) :
    diffLoop "isort" "isort alteration" "isort altteration" "" 0 ""
        ("--- a.py\t2024" :: "@@ -12,5 +15,5 @@" ::
          (b1 ++ "@@ -3,2 +4,2 @@" :: (b2 ++ ["--- b.py\tlater"])))
      = ([⟨"error", "a.py", 12, 1, "isort", "isort altteration", bodyMsg b1⟩,
          ⟨"error", "a.py", 3, 1, "isort", "isort alteration", bodyMsg b2⟩], none) := by
  have hb1 : ∀ l ∈ b1, plainDiffLine l = true :=
    fun l hl => hb l (List.mem_append_left _ hl)
  have hb2 : ∀ l ∈ b2, plainDiffLine l = true :=
    fun l hl => hb l (List.mem_append_right _ hl)
  have hm1 : bodyMsg b1 ≠ "" := bodyMsg_ne_empty b1 h1
  have hm2 : bodyMsg b2 ≠ "" := bodyMsg_ne_empty b2 h2
  rw [diffLoop_step_file0, diffLoop_step_hunk12, diffLoop_body _ _ _ b1 hb1,
    diffLoop_step_hunk3 "isort" "isort alteration" "isort altteration" "a.py"
      (by decide) 12 (bodyMsg b1) hm1,
    diffLoop_body _ _ _ b2 hb2,
    diffLoop_step_trail "isort" "isort alteration" "isort altteration" "a.py"
      (by decide) 3 (bodyMsg b2) hm2]
  rfl

/-- C3 witness: the two-hunk theorem applied to the bodies ["x"], ["y"]. -/
theorem c3_two_hunks_witness :
    diffLoop "isort" "isort alteration" "isort altteration" "" 0 ""
        ("--- a.py\t2024" :: "@@ -12,5 +15,5 @@" ::
          (["x"] ++ "@@ -3,2 +4,2 @@" :: (["y"] ++ ["--- b.py\tlater"])))
      = ([⟨"error", "a.py", 12, 1, "isort", "isort altteration", bodyMsg ["x"]⟩,
          ⟨"error", "a.py", 3, 1, "isort", "isort alteration", bodyMsg ["y"]⟩], none) :=
  c3_two_hunks ["x"] ["y"] (by decide) (by decide) (by decide)

/-- C4 counterexample: on the hunk-header line "@@ -12,5 +15,5 @@ ..."
(trailing text after the second "@@", hence five space-separated tokens)
the engine raises an uncaught ValueError instead of setting the current
line to 12, and no record with line 12 is produced. -/
theorem c4_hunk_trailing_text_raises :
    lint_black_diffs (asciiBytes "@@ -12,5 +15,5 @@ ...") = ([], some PyErr.valueError) ∧
    (((lint_black_diffs (asciiBytes "@@ -12,5 +15,5 @@ ...")).1.map Diagnostic.line
      == [12]) = false) := by
  constructor <;> decide

/-- C4 amended: a hunk-header line of exactly four space-separated tokens,
"@@ -12,5 +15,5 @@", sets the current line to 12 and the record flushed
for that hunk carries line = 12; a hunk header with trailing text after
the second "@@" instead raises ValueError (see the counterexample). -/
theorem c4_exact_hunk_header_line12 :
    lint_black_diffs (asciiBytes "--- a.py\tx\n@@ -12,5 +15,5 @@\nbody\n--- b.py\ty") =
      ([⟨"error", "a.py", 12, 1, "black", "Black alteration", "body\n"⟩], none) := by
  decide

/-- C5: content buffered after the last header is never flushed: from any
engine state, a run of lines containing no "--- " and no "@@" header that
reaches end of input produces no record. -/
theorem c5_no_eof_flush :
    ∀ (body : List String),
      (∀ l ∈ body, strStartsWith l "--- " = false ∧ strStartsWith l "@@" = false) →
      ∀ (src tF tH f : String) (n : Int) (buf : String),
        diffLoop src tF tH f n buf body = ([], none) := by
  intro body
  induction body with
  | nil => intro hb src tF tH f n buf; rfl
  | cons l t ih =>
    intro hb src tF tH f n buf
    obtain ⟨h2, h3⟩ := hb l (by simp)
    by_cases h1 : strStartsWith l "+++ " = true
    · simp only [diffLoop, h1, if_true]
      exact ih (fun x hx => hb x (List.mem_cons_of_mem _ hx)) src tF tH f n buf
    · have h1f : strStartsWith l "+++ " = false := by
        revert h1; cases strStartsWith l "+++ " <;> simp
      simp [diffLoop, h1f, h2, h3]
      exact ih (fun x hx => hb x (List.mem_cons_of_mem _ hx)) src tF tH f n (buf ++ l ++ "\n")

/-- C5 witness: the no-flush theorem applied to the single trailing line
"pending" from a mid-hunk state. -/
theorem c5_no_eof_flush_witness :
    diffLoop "isort" "isort alteration" "isort altteration" "f.py" 4 "buf" ["pending"] =
      ([], none) :=
  c5_no_eof_flush ["pending"] (by decide) "isort" "isort alteration" "isort altteration"
    "f.py" 4 "buf"

/-- C6 counterexample: the type-checker-style (mypy) parser decodes
strictly, so the invalid UTF-8 byte 0xFF makes it raise a decode error
rather than substitute. -/
theorem c6_mypy_strict_decode :
    lint_mypy [0xFF] = ([], some PyErr.unicodeDecodeError) ∧
    ((lint_mypy [0xFF]).2 == none) = false := by
  constructor <;> decide

/-- C6 amended: only the lint-style (pylint) parser tolerates decode
errors by substitution — it never fails on any byte input, and on the
invalid byte 0xFF it yields no records and no error — while the
type-checker-style (mypy) parser decodes strictly and raises on 0xFF. -/
theorem c6_decode_tolerance :
    (∀ bs : List Nat, (lint_pylint bs).2 = none) ∧
    lint_pylint [0xFF] = ([], none) ∧
    lint_mypy [0xFF] = ([], some PyErr.unicodeDecodeError) :=
  ⟨fun _ => rfl, by decide, by decide⟩

/-- C7 counterexample: the lint-style parser keeps the fourth field
verbatim, so the record for "pkg/a.py:10:3: C0114 missing docstring"
carries the message " C0114 missing docstring" with its leading space,
not "C0114 missing docstring". -/
theorem c7_pylint_message_keeps_space :
    lint_pylint (asciiBytes "pkg/a.py:10:3: C0114 missing docstring") =
      ([⟨"error", "pkg/a.py", 10, 3, "pylint", "", " C0114 missing docstring"⟩], none) ∧
    ((lint_pylint (asciiBytes "pkg/a.py:10:3: C0114 missing docstring")).1 ==
      [⟨"error", "pkg/a.py", 10, 3, "pylint", "", "C0114 missing docstring"⟩]) = false := by
  constructor <;> decide

/-- C7 amended: the line "pkg/a.py:10:3: C0114 missing docstring" yields
exactly one record with severity error, file "pkg/a.py", line 10, column
3 and message " C0114 missing docstring" (the leading space of the
fourth field is preserved). -/
theorem c7_pylint_line_actual :
    lint_pylint (asciiBytes "pkg/a.py:10:3: C0114 missing docstring") =
      ([⟨"error", "pkg/a.py", 10, 3, "pylint", "", " C0114 missing docstring"⟩], none) := by
  decide

/-- C8: the type-checker-style parser maps the line
"mymodule/foo.py:42:note: Revealed type is 'int'" to exactly one record
with severity notice, file "mymodule/foo.py", line 42, column 1, source
"mypy" and message "Revealed type is 'int'". -/
theorem c8_mypy_note_line :
    lint_mypy (asciiBytes "mymodule/foo.py:42:note: Revealed type is \x27int\x27") =
      ([⟨"notice", "mymodule/foo.py", 42, 1, "mypy", "",
        "Revealed type is \x27int\x27"⟩], none) := by
  decide

/-- C9 counterexample: the flake8-style parser emits the integers it
parses unchecked, so the line "f.py:0:0:msg" yields a record with line 0
and column 0, refuting the invariant that line and column are always
positive. -/
theorem c9_flake8_line_zero :
    lint_flake8 (asciiBytes "f.py:0:0:msg") =
      ([⟨"error", "f.py", 0, 0, "flake8", "", "msg"⟩], none) ∧
    ((lint_flake8 (asciiBytes "f.py:0:0:msg")).1.all
      (fun d => decide (0 < d.line) && decide (0 < d.column))) = false := by
  constructor <;> decide

/-- C9 amended: records from the type-checker-style and docstring-style
parsers always carry column 1, and records from the diff engines always
carry column 1 and a nonnegative line (an absolute value) whenever the
engine starts from a nonnegative current line; the flake8- and
lint-style parsers emit exactly the integers the tool reported, which
can be zero or negative. -/
theorem c9_positions :
    (∀ (bs : List Nat) (d : Diagnostic), d ∈ (lint_mypy bs).1 → d.column = 1) ∧
    (∀ (bs : List Nat) (d : Diagnostic), d ∈ (lint_pydocstyle bs).1 → d.column = 1) ∧
    (∀ (src tF tH : String) (ls : List String) (f : String) (n : Int) (buf : String)
        (d : Diagnostic), 0 ≤ n → d ∈ (diffLoop src tF tH f n buf ls).1 →
          d.column = 1 ∧ 0 ≤ d.line) ∧
    lint_flake8 (asciiBytes "f.py:7:-2:m") =
      ([⟨"error", "f.py", 7, -2, "flake8", "", "m"⟩], none) := by
  refine ⟨?_, ?_, ?_, by decide⟩
  · intro bs d hd
    unfold lint_mypy at hd
    split at hd
    · simp at hd
    · rcases List.mem_filterMap.mp hd with ⟨a, _, ha⟩
      exact mypyLine_col a d ha
  · intro bs d hd
    unfold lint_pydocstyle at hd
    split at hd
    · simp at hd
    · exact pydocstyleLoop_col (toLines _).length _ le_rfl d hd
  · intro src tF tH ls f n buf d hn hd
    exact diffLoop_col_line src tF tH ls f n buf hn d hd

/-- C9 witness: the position theorem applied to a concrete black diff. -/
theorem c9_positions_witness :
    (Diagnostic.mk "error" "a.py" 12 1 "black" "Black alteration" "body\n").column = 1 ∧
    0 ≤ (Diagnostic.mk "error" "a.py" 12 1 "black" "Black alteration" "body\n").line :=
  c9_positions.2.2.1 "black" "Black alteration" "Black alteration"
    ["--- a.py\tx", "@@ -12,5 +15,5 @@", "body", "--- b.py\ty"] "" 0 ""
    (Diagnostic.mk "error" "a.py" 12 1 "black" "Black alteration" "body\n")
    (by decide) (by decide)

/-- C10: a docstring-style input ending at a header line (with no message
line after it) drops the truncated two-line record: the loop emits
nothing for a final header, whatever it is, and the parser returns
normally, as on the concrete truncated input "a.py:1 summary". -/
theorem c10_truncated_record_dropped :
    (∀ header : String, pydocstyleLoop [header] = []) ∧
    lint_pydocstyle (asciiBytes "a.py:1 summary") = ([], none) := by
  refine ⟨fun header => ?_, by decide⟩
  simp only [pydocstyleLoop]
  split
  · split <;> rfl
  · rfl
